import Mathlib

/-!
Verification of the nametag badge system (BLE LED badge driver and lobby game).

This file gives a shallow embedding of the parts of the code base that the
verified properties talk about:

* `src/nametag/protocol.py` — stash CRC, stash packet encoding and the
  stash-read acceptance rule, the stash backup cache updates, the escape
  framing, bulk-chunk wrapping, and the glyph size validation;
* `src/nametag/bluefruit.py` together with `src/nametag/scanner.py` — the
  connect/disconnect handshake state machine and the disconnect poisoning
  of pending operations, modelled as explicit transition systems at the
  granularity of the event loop's suspension points;
* `src/lobby_game/game_logic.py` and `src/lobby_game/tag_data.py` — the
  word game state machine `program_for_tag` and the stash byte encoding of
  `TagState`.

Bytes are modelled as `Nat` values (< 256 in every packet the code builds);
byte strings as `List Nat`.  Python `float` monotonic timestamps are
modelled as `Nat` parameters: no claim compares two timestamps.
-/

namespace NametagProto

/-! ### Stash CRC, from `protocol.py` line 101.

The code computes `crcmod.mkCrcFun(0x1CF)` ("Koopman's 0xe7").  With
`crcmod`'s default parameters this is the table-driven bit-reversed CRC-8:
the 9-bit polynomial `0x1CF` has its low 8 bits `0xCF` bit-reversed to
`0xF3`, the initial register value is `0xFF` (crcmod's default `initCrc`
of all ones masked to 8 bits), there is no output xor, and each input byte
`x` updates the register `c` to `table[x xor c]` where `table[i]` applies
eight LSB-first polynomial division steps to `i`. -/

/-- One LSB-first polynomial-division step with the reversed polynomial `0xF3`. -/
def crcRound (c : Nat) : Nat :=
  if c % 2 = 1 then (c / 2) ^^^ 0xF3 else c / 2

/-- Eight LSB-first steps: the reversed CRC table entry for a byte. -/
def crcByte (c : Nat) : Nat :=
  crcRound (crcRound (crcRound (crcRound (crcRound (crcRound (crcRound (crcRound c)))))))

/-- The stash CRC: `Nametag._stash_crc = crcmod.mkCrcFun(0x1CF)` (protocol.py:101). -/
def stash_crc (data : List Nat) : Nat :=
  data.foldl (fun crc x => crcByte ((x ^^^ crc) % 256)) 0xFF

/-! ### Stash packets, from `Nametag.write_stash` (protocol.py:103-120)
and `Nametag.read_stash` (protocol.py:122-149). -/

/-- The raw stash packet built by `write_stash`:
`struct.pack("BB", 0x80 | len(data), _stash_crc(data)) + data`. -/
def stashPacket (data : List Nat) : List Nat :=
  (0x80 ||| data.length) :: stash_crc data :: data

/-- The packet `write_stash` sends, `none` when it raises
`ValueError("Stash data too long")` for payloads over 18 bytes. -/
def encode_stash (data : List Nat) : Option (List Nat) :=
  if data.length > 18 then none else some (stashPacket data)

/-- The stash-read acceptance rule of `read_stash` (protocol.py:124-135):
the read packet is accepted when `len(packet) > 2`,
`size = packet[0] ^ 0x80`, the payload `packet[2 : 2 + size]` really has
`size` bytes, and `packet[1]` equals the payload's CRC. -/
def decode_stash (packet : List Nat) : Option (List Nat) :=
  if packet.length > 2 then
    match packet with
    | b0 :: b1 :: rest =>
      let size := b0 ^^^ 0x80
      let data := rest.take size
      if data.length = size ∧ b1 = stash_crc data then some data else none
    | _ => none
  else none

/-! ### Stash backup cache, from `protocol.py` (StashState, lines 24-29;
`stash_backup` dict, line 220; updates in `write_stash` lines 114-120 and
`read_stash` lines 128-149). -/

/-- The `StashState` record (`protocol.py:24-29`). -/
structure StashState where
  data : List Nat
  from_backup : Bool
  stash_displaced : Bool
  backup_monotime : Nat
  deriving DecidableEq, Repr

/-- The `write_stash` operation as a function of the badge id, the payload,
the packet read back from attribute 3 after flushing, the current monotonic
time and the backup cache.  Returns the updated cache, or `none` when the
code raises (`ValueError` for an over-long payload, `ProtocolError` when the
read-back does not start with the packet just written).  The successful path
records `StashState(data=data, from_backup=True, stash_displaced=False,
backup_monotime=time.monotonic())` (protocol.py:115-120). -/
def write_stash (id : String) (data : List Nat) (readBack : List Nat) (now : Nat)
    (backup : String → Option StashState) : Option (String → Option StashState) :=
  if data.length > 18 then none
  else if readBack.take (stashPacket data).length = stashPacket data then
    some (fun i => if i = id then
      some ⟨data, true, false, now⟩ else backup i)
  else none

/-- The `read_stash` operation as a function of the badge id, the packet
returned by the GATT read, the current monotonic time and the backup cache.
Returns the `Optional[StashState]` result and the updated cache.  A valid
packet records `StashState(data, from_backup=False, stash_displaced=False,
backup_monotime=now)` (protocol.py:128-135); otherwise the cached backup is
returned with `from_backup` forced to `True` and the cache unchanged
(protocol.py:137-149). -/
def read_stash (id : String) (packet : List Nat) (now : Nat)
    (backup : String → Option StashState) :
    Option StashState × (String → Option StashState) :=
  match decode_stash packet with
  | some data =>
    (some ⟨data, false, false, now⟩,
     fun i => if i = id then some ⟨data, false, false, now⟩ else backup i)
  | none =>
    match backup id with
    | none => (none, backup)
    | some b => (some { b with from_backup := true }, backup)

/-! ### Escape framing, from `Nametag._encode` (protocol.py:207-217). -/

/-- Big-endian 16-bit encoding, `struct.pack(">H", n)` for `n < 65536`. -/
def be16 (n : Nat) : List Nat := [n / 256 % 256, n % 256]

/-- `bytes.replace` with a single-byte pattern: every occurrence of byte `t`
is replaced by the byte sequence `sub`. -/
def replaceByte (t : Nat) (sub : List Nat) (data : List Nat) : List Nat :=
  data.flatMap (fun c => if c = t then sub else [c])

/-- `escape123` from `Nametag._encode` (protocol.py:209-213): replace
`0x02 -> 02 06` first, then `0x01 -> 02 05`, then `0x03 -> 02 07`. -/
def escape123 (data : List Nat) : List Nat :=
  replaceByte 3 [2, 7] (replaceByte 1 [2, 5] (replaceByte 2 [2, 6] data))

/-- The framed message encoding `Nametag._encode` (protocol.py:207-217):
`b"\x01" + escape123(len_be16(tag_u8 + body) + tag_u8 + body) + b"\x03"`. -/
def encodeFramed (tag : Nat) (body : List Nat) : List Nat :=
  1 :: escape123 (be16 (body.length + 1) ++ tag :: body) ++ [3]

/-- Modelled from the spec: the repository has no decoder for the escape
framing under `src/` (only the device firmware decodes it); the spec defines
`unescape` as the inverse substitution `02 05 -> 01`, `02 06 -> 02`,
`02 07 -> 03`, other bytes passing through. -/
def unescape : List Nat → List Nat
  | [] => []
  | [c] => [c]
  | c :: d :: rest =>
    if c = 2 then
      if d = 5 then 1 :: unescape rest
      else if d = 6 then 2 :: unescape rest
      else if d = 7 then 3 :: unescape rest
      else 2 :: unescape (d :: rest)
    else c :: unescape (d :: rest)

/-- The per-byte effect of `escape123` (derived view used by the proofs). -/
def escByte (c : Nat) : List Nat :=
  if c = 2 then [2, 6] else if c = 1 then [2, 5] else if c = 3 then [2, 7] else [c]

/-- Decides that every `0x02` in the list is immediately followed by one of
`0x05`, `0x06`, `0x07`. -/
def twoOk : List Nat → Bool
  | [] => true
  | c :: rest =>
    if c = 2 then
      match rest with
      | [] => false
      | d :: _ => decide (d = 5 ∨ d = 6 ∨ d = 7) && twoOk rest
    else twoOk rest

/-! ### Bulk chunk wrapping, from `Nametag.send_bulk_message`
(protocol.py:165-177).  The wrapped chunk for index `i` is
`struct.pack(">xHHB", len(body), index, len(chunk)) + chunk` followed by one
XOR-checksum byte — where the loop REUSES the Python variable `body` for the
wrapped chunk, so from the second iteration on `len(body)` is the length of
the PREVIOUS wrapped chunk, not of the original upload body. -/

/-- XOR of all bytes, `reduce(operator.xor, body, 0)`. -/
def xorChecksum (l : List Nat) : Nat := l.foldl (fun a b => a ^^^ b) 0

/-- The `chunks` generator inside `send_bulk_message`: successive
`size`-byte slices.  (`size` is always positive in the code; the `size = 0`
guard only serves totality.) -/
def chunksOf (size : Nat) (data : List Nat) : List (List Nat) :=
  if size = 0 ∨ data = [] then []
  else data.take size :: chunksOf size (data.drop size)
termination_by data.length
decreasing_by
  simp only [List.length_drop]
  rcases data with _ | ⟨c, d⟩
  · simp_all
  · simp only [List.length_cons]
    omega

/-- The chunk-wrapping loop of `send_bulk_message` (protocol.py:174-176),
with `bodyVar` playing the reused Python variable `body`. -/
def wrapChunksGo : List (List Nat) → Nat → List Nat → List (List Nat)
  | [], _, _ => []
  | c :: rest, index, bodyVar =>
    let b1 := 0 :: be16 bodyVar.length ++ be16 index ++ c.length :: c
    let b2 := b1 ++ [xorChecksum b1]
    b2 :: wrapChunksGo rest (index + 1) b2

/-- All wrapped chunks produced by one bulk upload of `body`. -/
def wrapChunks (body : List Nat) : List (List Nat) :=
  wrapChunksGo (chunksOf 128 body) 0 body

/-! ### Glyph validation, from `Nametag.show_glyphs` (protocol.py:55-65).
The code accepts a glyph when its mode is `"1"` and
`not (glyph.size[1] > 48 or glyph.size[1] != 12)` — both tests read
`size[1]` (the height); the width `size[0]` is never examined, although the
error message reads `Image size ... != ([1-48], 12)`. -/

/-- Whether `show_glyphs` accepts one glyph of mode `mode` and size
`(w, h)` without raising `ValueError`. -/
def glyphCheckOk (mode : String) (_w h : Nat) : Bool :=
  if mode ≠ "1" then false
  else if h > 48 ∨ h ≠ 12 then false
  else true

end NametagProto

namespace LobbyGame

open NametagProto

/-! ### Tag data, from `src/lobby_game/tag_data.py`.

Words are Python `str` values; the stash carries their `.encode()` bytes.
Every word in the game tables is plain ASCII, for which UTF-8 encoding maps
each character to its code point, decoding is its inverse, and
`bytes.decode(errors="replace")` of arbitrary bytes equals an ASCII word
exactly when the bytes are that word's encoding; so byte-level equality is
an exact model of the decoded-string comparisons in `game_logic.py`. -/

/-- The UTF-8 bytes of an ASCII string (`str.encode()`). -/
def str2bytes (s : String) : List Nat := s.data.map Char.toNat

/-- The `TagState` record (`tag_data.py:11-15`): `phase` bytes, 16-bit
signed `number`, up-to-12-byte `string`. -/
structure TagState where
  phase : List Nat
  number : Int := 0
  string : List Nat := []
  deriving DecidableEq, Repr

/-- Little-endian signed 16-bit decoding, `struct.unpack("<h", ...)`.  The
`% 256` masks only matter for inputs that are not bytes. -/
def int16FromLE (b4 b5 : Nat) : Int :=
  let v := b4 % 256 + 256 * (b5 % 256)
  if v < 32768 then (v : Int) else (v : Int) - 65536

/-- Little-endian signed 16-bit encoding, `struct.pack("<h", n)`, modelled
totally via the two's-complement residue (the code raises `struct.error`
outside the 16-bit range, which no claim exercises). -/
def int16ToLE (n : Int) : List Nat :=
  [(n % 65536).toNat % 256, (n % 65536).toNat / 256]

/-- `TagState.__bytes__` (`tag_data.py:17-18`):
`struct.pack("<4ph", phase, number) + string`.  The `"4p"` Pascal-string
field stores a count byte `min(len(phase), 3)`, up to three phase bytes,
and zero padding to four bytes. -/
def TagState.toBytes (s : TagState) : List Nat :=
  min s.phase.length 3 ::
    (s.phase.take 3 ++ List.replicate (3 - s.phase.length) 0) ++
    int16ToLE s.number ++ s.string

/-- `TagState.from_bytes` (`tag_data.py:20-26`): `None` for fewer than six
bytes, otherwise the `"<4ph"` header (the `"4p"` field reads
`data[1 : 1 + min(data[0], 3)]`) followed by the string tail. -/
def TagState.from_bytes (data : List Nat) : Option TagState :=
  match data with
  | b0 :: b1 :: b2 :: b3 :: b4 :: b5 :: rest =>
    some ⟨[b1, b2, b3].take b0, int16FromLE b4 b5, rest⟩
  | _ => none

/-- The `TagConfig` record (`tag_data.py:29-34`). -/
structure TagConfig where
  id : String
  team : Int := 0
  flavor : String := ""
  note : String := ""
  deriving DecidableEq, Repr

/-- The `DisplayScene` record (`tag_data.py:48-53`). -/
structure DisplayScene where
  image_name : Option String := none
  text : String := ""
  bold : Bool := false
  blink : Bool := false
  deriving DecidableEq, Repr

/-- The `DisplayProgram` record (`tag_data.py:56-59`). -/
structure DisplayProgram where
  new_state : TagState
  scenes : List DisplayScene
  deriving DecidableEq, Repr

/-! ### Game tables, from `src/lobby_game/game_logic.py` lines 10-119.

Python dicts with pairwise distinct keys are modelled as association lists
(`List.lookup` then agrees with `dict.get`).  The post-hoc reversal loop at
lines 117-119 is a no-op: the station 2 and station 3 tables are already
symmetric by construction. -/

def FLAVOR_START : List (String × String) :=
  [("A", "TWIN"), ("B", "MAN"), ("C", "MOTHER")]

def FLAVOR_END : List (String × String) :=
  [("A", "REST"), ("B", "IN"), ("C", "PEACE")]

/-- The "beheading" word set of station 1 (`game_logic.py:16-36`). -/
def behead_words : List String :=
  ["AGO", "AWAY", "AWRY", "BOTHER", "LEAST", "MAN", "MOTHER", "OPEN",
   "SAGE", "SHUT", "SWAY", "TWIN", "TWIT", "WOMEN", "WON", "YEAST"]

/-- Station 1: remove the first letter (`w: w[1:]`). -/
def next_word_1 : List (List Nat × List Nat) :=
  behead_words.map (fun w => (str2bytes w, str2bytes (w.drop 1)))

/-- The letter-edit pairs of station 2 (`game_logic.py:38-70`). -/
def edit_pairs : List (String × String) :=
  [("AGE", "AGO"), ("AWAY", "AWRY"), ("COME", "HOME"), ("EAST", "MAST"),
   ("FATHER", "RATHER"), ("GO", "SO"), ("HUT", "OUT"), ("LEAST", "LEASH"),
   ("LOSE", "NOSE"), ("LOST", "MOST"), ("MAN", "MAP"), ("MEN", "MET"),
   ("MOTHER", "MOSHER"), ("OFF", "OAF"), ("OMEN", "OPEN"), ("ON", "AN"),
   ("OTHER", "OCHER"), ("PEN", "PUN"), ("SAME", "SAGE"), ("SHUT", "SMUT"),
   ("TWIN", "TWIT"), ("WAY", "WAR"), ("WEST", "REST"), ("WIN", "WON"),
   ("WIT", "WIG"), ("WOMAN", "WOMEN"), ("WRY", "WHY")]

/-- Station 2: single-letter edit, bidirectional. -/
def next_word_2 : List (List Nat × List Nat) :=
  edit_pairs.flatMap
    (fun p => [(str2bytes p.1, str2bytes p.2), (str2bytes p.2, str2bytes p.1)])

/-- The opposite pairs of station 3 (`game_logic.py:72-92`). -/
def opposite_pairs : List (String × String) :=
  [("EAST", "WEST"), ("GO", "COME"), ("HOME", "AWAY"), ("MAN", "WOMAN"),
   ("MEN", "WOMEN"), ("MOST", "LEAST"), ("MOTHER", "FATHER"), ("ON", "OFF"),
   ("OPEN", "SHUT"), ("OTHER", "SAME"), ("OUT", "IN"), ("PEN", "PENCIL"),
   ("WAR", "PEACE"), ("WIN", "LOSE"), ("WON", "LOST")]

/-- Station 3: opposite, bidirectional. -/
def next_word_3 : List (List Nat × List Nat) :=
  opposite_pairs.flatMap
    (fun p => [(str2bytes p.1, str2bytes p.2), (str2bytes p.2, str2bytes p.1)])

/-- `NEXT_WORD.get(ghost_id, {})` (`game_logic.py:14-93, 186`). -/
def NEXT_WORD (ghost_id : Int) : List (List Nat × List Nat) :=
  if ghost_id = 1 then next_word_1
  else if ghost_id = 2 then next_word_2
  else if ghost_id = 3 then next_word_3
  else []

/-- `CHECKPOINT` (`game_logic.py:95-106`): every listed word rolls back to
`"GO"`. -/
def CHECKPOINT : List (List Nat × List Nat) :=
  (["SO", "COME", "HOME", "AWAY", "AWRY", "SWAY", "WAY", "WHY", "WRY",
    "WAR"]).map (fun w => (str2bytes w, str2bytes "GO"))

/-- `NEXT_GHOST` (`game_logic.py:108-113`). -/
def NEXT_GHOST : List (List Nat × Int) :=
  [(str2bytes "TWIN", 1), (str2bytes "MAN", 3), (str2bytes "MOTHER", 1),
   (str2bytes "GO", 3)]

/-- ASCII view of a byte string, modelling `bytes.decode` for the ASCII
words that reach the display text. -/
def bstr (b : List Nat) : String := String.mk (b.map Char.ofNat)

/-- Double-quoted display text, modelling the Python f-strings. -/
def quot2 (s : String) : String := "\"" ++ s ++ "\""

/-- Phase constant `b"GAM"`. -/
def bGAM : List Nat := str2bytes "GAM"

/-- Phase constant `b"WIN"`. -/
def bWIN : List Nat := str2bytes "WIN"

/-- Phase constant `b"RST"`. -/
def bRST : List Nat := str2bytes "RST"

/-- The local `start_word` of `program_for_tag` (`game_logic.py:130`):
`FLAVOR_START.get(config.flavor, "BADTAG")`. -/
def startWordOf (config : TagConfig) : String :=
  (List.lookup config.flavor FLAVOR_START).getD "BADTAG"

/-- The local `end_word` of `program_for_tag` (`game_logic.py:131`):
`FLAVOR_END.get(config.flavor, "BADTAG")`. -/
def endWordOf (config : TagConfig) : String :=
  (List.lookup config.flavor FLAVOR_END).getD "BADTAG"

/-- The staff-station early-return test of `program_for_tag`
(`game_logic.py:137`): `state and state.phase in (b"GAM", b"WIN") and not
from_backup`. -/
def staffSkip (state : Option TagState) (from_backup : Bool) : Bool :=
  match state with
  | some st => (decide (st.phase = bGAM) || decide (st.phase = bWIN)) && !from_backup
  | none => false

/-- `program_for_tag` (`game_logic.py:122-250`), transcribed branch by
branch.  `ghost_id` is the station id (`0` is the staff station: Python
`if not ghost_id`), `stash` the result of the stash read.  The reskip
lookup `NEXT_WORD[ghost_id][restart]` is a raising dict access in Python;
it is modelled with a `[]` default, which the reachable cases never use. -/
def program_for_tag (ghost_id : Int) (config : TagConfig)
    (stash : Option StashState) : Option DisplayProgram :=
  let start_word := startWordOf config
  let end_word := endWordOf config
  let from_backup := (stash.map StashState.from_backup).getD false
  let state := stash.bind (fun s => TagState.from_bytes s.data)
  if ghost_id = 0 then
    if staffSkip state from_backup then none
    else some ⟨⟨bGAM, 0, str2bytes start_word⟩,
      [⟨some ("need-tag" ++ config.flavor), end_word, true, false⟩,
       ⟨some "use-guides", "", false, false⟩,
       ⟨some "give", quot2 start_word, true, true⟩]⟩
  else
    match state with
    | none => some ⟨⟨bRST, 0, []⟩, [⟨some "tag-reset", "", false, false⟩]⟩
    | some st =>
      if st.phase ≠ bGAM then none
      else
        let last_word := st.string
        let last_ghost := st.number
        if last_ghost = ghost_id then
          if from_backup then
            some ⟨st,
              [⟨some ("give-ghost" ++ toString ghost_id), quot2 (bstr last_word),
                true, true⟩]⟩
          else none
        else
          let next_word := List.lookup last_word (NEXT_WORD ghost_id)
          if next_word = some (str2bytes end_word) then
            some ⟨⟨bWIN, 0, []⟩,
              [⟨some ("accept-ghost" ++ toString ghost_id), quot2 (bstr last_word),
                false, false⟩,
               ⟨some "success", quot2 (bstr (str2bytes end_word)), true, true⟩]⟩
          else
            match next_word with
            | some nw =>
              some ⟨⟨bGAM, ghost_id, nw⟩,
                [⟨some ("accept-ghost" ++ toString ghost_id), quot2 (bstr last_word),
                  false, false⟩,
                 ⟨some ("give-ghost" ++ toString ghost_id), quot2 (bstr nw),
                  true, true⟩]⟩
            | none =>
              let restart := (List.lookup last_word CHECKPOINT).getD (str2bytes start_word)
              if last_word = restart then
                some ⟨⟨bGAM, ghost_id, restart⟩,
                  [⟨some ("reject-ghost" ++ toString ghost_id), quot2 (bstr last_word),
                    false, false⟩,
                   ⟨some "maybe-try-another", "", false, false⟩]⟩
              else if ghost_id = (List.lookup restart NEXT_GHOST).getD 0 then
                some ⟨⟨bGAM, ghost_id, (List.lookup restart (NEXT_WORD ghost_id)).getD []⟩,
                  [⟨some ("reject-ghost" ++ toString ghost_id), quot2 (bstr last_word),
                    false, false⟩,
                   ⟨some "was-back-at", quot2 (bstr restart), false, false⟩,
                   ⟨some ("accept-ghost" ++ toString ghost_id), quot2 (bstr restart),
                    false, false⟩,
                   ⟨some ("give-ghost" ++ toString ghost_id),
                    quot2 (bstr ((List.lookup restart (NEXT_WORD ghost_id)).getD [])),
                    true, true⟩]⟩
              else
                some ⟨⟨bGAM, ghost_id, restart⟩,
                  [⟨some ("reject-ghost" ++ toString ghost_id), quot2 (bstr last_word),
                    false, false⟩,
                   ⟨some "now-back-at", quot2 (bstr restart), true, true⟩,
                   ⟨some "now-visit-another", "", false, false⟩]⟩

end LobbyGame

namespace Bluefruit

/-! ### Connect-handshake state machine, from `Bluefruit.connect`
(`bluefruit.py:101-115`), `Bluefruit.ready_to_connect`
(`bluefruit.py:92-99`), the `conn` / `conn_fail` / `disconn` /
`disconn_fail` event handlers, `spawn_connection` in
`src/nametag/scanner.py:44-86`, and the scanner shutdown path that cancels
every outstanding task (`scanner.py:152-158`).

The model follows one scheduler/adapter session at the granularity of the
event loop's suspension points.  Each device address carries a phase that
combines its scanner-task program counter and its connection-handle state:

* `idle` — handle resolved (disconnected, failed or cancelled), no task,
  not busy-connecting;
* `reserved` — `spawn_connection` ran `busy_connecting.add(addr)`
  (scanner.py:84) and created the task, which has not started yet;
* `connecting` — the task started: it synchronously removed the address
  from `busy_connecting` (scanner.py:53), and `Bluefruit.connect` set the
  handle future pending and re-added the address to `busy_connecting`
  (bluefruit.py:109-110); the task is suspended in `_send_command`'s ack
  wait (bluefruit.py:111, still before the `try` of 112-115) or in
  `await dev.handle` (bluefruit.py:113);
* `connGot` / `connFailed` — the `conn` / `conn_fail` event resolved or
  failed the handle; the `finally` of `connect` (bluefruit.py:115) has not
  removed the address from `busy_connecting` yet;
* `connected` — the `finally` ran; handle resolved to a device handle;
* `disconnecting` — `Bluefruit.disconnect` set the handle pending and sent
  `disconn` (bluefruit.py:132-134);
* `orphan` — the task was cancelled at shutdown while suspended in
  `_send_command`'s ack wait inside `connect` (bluefruit.py:111): the
  CancelledError propagates out of `connect` BEFORE its `try` block, so
  the `finally` of line 115 never runs and the handle future stays
  connect-pending, while the task's completion callback `task_done`
  discards the address from `busy_connecting` (scanner.py:64).  The device
  is connect-pending with no busy slot and no task.

The handle future is pending exactly in phases `connecting`,
`disconnecting` and `orphan`; the address is in `busy_connecting` exactly
in phases `reserved`, `connecting`, `connGot` and `connFailed`.

Cancellation happens only on the scanner shutdown path: the poll loop of
`scan_with_adapter` has exited before its `finally` cancels the tasks
(scanner.py:152-155), and from that point no task is spawned and no
already-spawned task body ever starts (a task cancelled before its first
step raises immediately).  The `stopping` flag records this: `spawn`,
`start_ok` and `start_abort` require `stopping = false`, the `cancel_*`
steps require `stopping = true`, and adapter events keep flowing either
way (the reader task runs until the adapter context exits). -/

inductive CPhase
  | idle | reserved | connecting | connGot | connFailed | connected
  | disconnecting | orphan
  deriving DecidableEq, Repr

/-- The adapter-wide state: per-address phase, the `busy_connecting`
membership (`bluefruit.py:65`), and whether the scanner has entered its
shutdown path (`scanner.py:152-158`). -/
structure AdapterState where
  phase : String → CPhase
  busy : String → Bool
  stopping : Bool

/-- Pointwise function update, for one address. -/
def updF {β : Type} (f : String → β) (a : String) (v : β) : String → β :=
  fun x => if x = a then v else f x

/-- Fresh adapter: every device disconnected, `busy_connecting` empty,
scanner running. -/
def initAdapter : AdapterState := ⟨fun _ => CPhase.idle, fun _ => false, false⟩

/-- Whether the handle future of a device in this phase is pending
(`Device.handle` not done, bluefruit.py:38-52). -/
def pendingPhase : CPhase → Bool
  | CPhase.connecting => true
  | CPhase.disconnecting => true
  | CPhase.orphan => true
  | _ => false

/-- Whether the handle future of a device in this phase is pending from a
CONNECT request (as opposed to a disconnect request). -/
def connectPendingPhase : CPhase → Bool
  | CPhase.connecting => true
  | CPhase.orphan => true
  | _ => false

/-- Whether a device in this phase has its address in `busy_connecting`. -/
def busyPhase : CPhase → Bool
  | CPhase.reserved => true
  | CPhase.connecting => true
  | CPhase.connGot => true
  | CPhase.connFailed => true
  | _ => false

/-- A device in this phase is engaged in a connect handshake: its address
is in `busy_connecting` or its handle is connect-pending. -/
def engagedP (p : CPhase) : Bool := busyPhase p || connectPendingPhase p

/-- One step of the scheduler/adapter composite.  Guards are the checks the
code makes before the corresponding mutation:

* `spawn`: the scanner spawns only while its poll loop runs (before the
  shutdown `finally`), when the device is fully disconnected with no task
  and `ready_to_connect` holds, which requires `not busy_connecting`
  (bluefruit.py:98, re-asserted at scanner.py:82); the
  `active < MAX_CONNECTIONS` part of `ready_to_connect` only restricts
  further and is not modelled.
* `start_ok` / `start_abort`: the task body synchronously removes the
  address and calls `connect`, which raises if any address is still busy
  (bluefruit.py:104-106) — otherwise it sets the handle pending and re-adds
  the address (bluefruit.py:109-110).  A task only starts while the
  scanner runs: once the shutdown `finally` has cancelled it, a
  never-started task raises CancelledError instead of running its body.
* `conn_ok` / `conn_fail`: `_on_conn_message` resolves the pending handle
  (bluefruit.py:255); `_on_conn_fail_message` fails it (bluefruit.py:268-271).
* `fin_ok` / `fin_fail`: the `finally` in `connect` removes the address
  from `busy_connecting` (bluefruit.py:114-115).
* `disc_req`: `disconnect` on a connected device sets the handle pending
  (bluefruit.py:130-133).
* `disc_done` / `disc_fail`: `_on_disconn_message` resolves the handle to
  `-1` (bluefruit.py:280); `_on_disconn_fail_message` fails it
  (bluefruit.py:289-290).
* `stop`: the scanner enters the shutdown `finally` and flags every task
  for cancellation (scanner.py:152-155).
* `cancel_reserved`: a cancelled task that never started; its body never
  runs and `task_done` discards the busy slot (scanner.py:64).
* `cancel_send`: cancellation delivered in `_send_command`'s ack wait
  (bluefruit.py:111), before the `try`: the handle stays connect-pending,
  the `finally` never runs, `task_done` discards the busy slot — the
  device becomes an `orphan`.
* `cancel_await`: cancellation delivered at `await dev.handle`
  (bluefruit.py:113): awaiting cancels the handle future (now done), and
  the `finally` removes the busy slot.
* `cancel_got` / `cancel_failed`: cancellation delivered when the task
  resumes after the handle resolved or failed: the `finally` still removes
  the busy slot; a resolved handle stays connected.
* `cancel_disc`: cancellation delivered in `disconnect`'s
  `await dev.handle` (bluefruit.py:134): the handle future is cancelled
  (done).  (Cancellation during the disconn `_send_command` leaves the
  handle disconnect-pending, which phase `disconnecting` already covers.)
* `orphan_conn` / `orphan_conn_fail`: an orphan's pending handle is still
  resolved or failed by a late `conn` / `conn_fail` event
  (bluefruit.py:255, 268-271). -/
inductive AStep : AdapterState → AdapterState → Prop
  | spawn (s : AdapterState) (a : String) :
      s.stopping = false → s.phase a = CPhase.idle → (∀ b, s.busy b = false) →
      AStep s ⟨updF s.phase a CPhase.reserved, updF s.busy a true, s.stopping⟩
  | start_ok (s : AdapterState) (a : String) :
      s.stopping = false → s.phase a = CPhase.reserved →
      (∀ b, b ≠ a → s.busy b = false) →
      AStep s ⟨updF s.phase a CPhase.connecting, s.busy, s.stopping⟩
  | start_abort (s : AdapterState) (a b : String) :
      s.stopping = false → s.phase a = CPhase.reserved → b ≠ a →
      s.busy b = true →
      AStep s ⟨updF s.phase a CPhase.idle, updF s.busy a false, s.stopping⟩
  | conn_ok (s : AdapterState) (a : String) :
      s.phase a = CPhase.connecting →
      AStep s ⟨updF s.phase a CPhase.connGot, s.busy, s.stopping⟩
  | conn_fail (s : AdapterState) (a : String) :
      s.phase a = CPhase.connecting →
      AStep s ⟨updF s.phase a CPhase.connFailed, s.busy, s.stopping⟩
  | fin_ok (s : AdapterState) (a : String) :
      s.phase a = CPhase.connGot →
      AStep s ⟨updF s.phase a CPhase.connected, updF s.busy a false, s.stopping⟩
  | fin_fail (s : AdapterState) (a : String) :
      s.phase a = CPhase.connFailed →
      AStep s ⟨updF s.phase a CPhase.idle, updF s.busy a false, s.stopping⟩
  | disc_req (s : AdapterState) (a : String) :
      s.phase a = CPhase.connected →
      AStep s ⟨updF s.phase a CPhase.disconnecting, s.busy, s.stopping⟩
  | disc_done (s : AdapterState) (a : String) :
      s.phase a = CPhase.disconnecting →
      AStep s ⟨updF s.phase a CPhase.idle, s.busy, s.stopping⟩
  | disc_fail (s : AdapterState) (a : String) :
      s.phase a = CPhase.disconnecting →
      AStep s ⟨updF s.phase a CPhase.idle, s.busy, s.stopping⟩
  | stop (s : AdapterState) :
      AStep s ⟨s.phase, s.busy, true⟩
  | cancel_reserved (s : AdapterState) (a : String) :
      s.stopping = true → s.phase a = CPhase.reserved →
      AStep s ⟨updF s.phase a CPhase.idle, updF s.busy a false, s.stopping⟩
  | cancel_send (s : AdapterState) (a : String) :
      s.stopping = true → s.phase a = CPhase.connecting →
      AStep s ⟨updF s.phase a CPhase.orphan, updF s.busy a false, s.stopping⟩
  | cancel_await (s : AdapterState) (a : String) :
      s.stopping = true → s.phase a = CPhase.connecting →
      AStep s ⟨updF s.phase a CPhase.idle, updF s.busy a false, s.stopping⟩
  | cancel_got (s : AdapterState) (a : String) :
      s.stopping = true → s.phase a = CPhase.connGot →
      AStep s ⟨updF s.phase a CPhase.connected, updF s.busy a false, s.stopping⟩
  | cancel_failed (s : AdapterState) (a : String) :
      s.stopping = true → s.phase a = CPhase.connFailed →
      AStep s ⟨updF s.phase a CPhase.idle, updF s.busy a false, s.stopping⟩
  | cancel_disc (s : AdapterState) (a : String) :
      s.stopping = true → s.phase a = CPhase.disconnecting →
      AStep s ⟨updF s.phase a CPhase.idle, s.busy, s.stopping⟩
  | orphan_conn (s : AdapterState) (a : String) :
      s.phase a = CPhase.orphan →
      AStep s ⟨updF s.phase a CPhase.connected, s.busy, s.stopping⟩
  | orphan_conn_fail (s : AdapterState) (a : String) :
      s.phase a = CPhase.orphan →
      AStep s ⟨updF s.phase a CPhase.idle, s.busy, s.stopping⟩

/-- Reachability from the fresh adapter state. -/
def AReach (s : AdapterState) : Prop :=
  Relation.ReflTransGen AStep initAdapter s

/-- The claimed adapter-wide bound, `count(devices with pending connect) +
count(devices in busy_connecting) <= 1`, phrased for possibly-infinite
address spaces: the two sets are disjoint and their union has at most one
element — exactly the statement that the two cardinalities sum to at most
one. -/
def singleConnectClaim (s : AdapterState) : Prop :=
  (∀ a, ¬(pendingPhase (s.phase a) = true ∧ s.busy a = true)) ∧
  (∀ a b, (pendingPhase (s.phase a) = true ∨ s.busy a = true) →
    (pendingPhase (s.phase b) = true ∨ s.busy b = true) → a = b)

/-- A device engaged in a connect handshake: its address is in
`busy_connecting` or its handle is pending from a connect request. -/
def connBusyD (s : AdapterState) (a : String) : Prop :=
  s.busy a = true ∨ connectPendingPhase (s.phase a) = true

/-- State after `spawn "A"` from the fresh adapter. -/
def stateA1 : AdapterState :=
  ⟨updF initAdapter.phase "A" CPhase.reserved, updF initAdapter.busy "A" true,
   initAdapter.stopping⟩

/-- State after `spawn "A"` then `start_ok "A"`: `"A"` is mid-connect, its
handle pending and its address in `busy_connecting` at once. -/
def stateA2 : AdapterState :=
  ⟨updF stateA1.phase "A" CPhase.connecting, stateA1.busy, stateA1.stopping⟩

/-- The inductive invariant: `busy_connecting` membership tracks the busy
phases exactly, orphans exist only after shutdown has begun, and at most
one device is engaged in a connect handshake. -/
def AInv (s : AdapterState) : Prop :=
  (∀ a, s.busy a = busyPhase (s.phase a)) ∧
  (∀ a, s.phase a = CPhase.orphan → s.stopping = true) ∧
  (∀ a b, engagedP (s.phase a) = true → engagedP (s.phase b) = true → a = b)

end Bluefruit

namespace BluefruitDev

/-! ### Disconnect poisoning and write completions, from
`Bluefruit._on_disconn_message` (bluefruit.py:273-281),
`Bluefruit._poison_device` (bluefruit.py:187-199), `Bluefruit.write`
(bluefruit.py:136-149), `_on_write_message` (bluefruit.py:347-366) and
`_on_conn_message` (bluefruit.py:247-256).

One device is modelled by its handle state, the number of pending write
futures (`len(dev.writes)`), the attributes holding a pending read or
notify future, and a ledger counting write futures that were completed
(resolved or failed) — completed futures leave `dev.writes` but their
holders still observe the completion. -/

/-- The `Device.handle` future: pending, resolved to a handle, resolved to
`-1` (disconnected), or failed with an exception. -/
inductive HState
  | pend
  | conn (h : Nat)
  | disc
  | failed
  deriving DecidableEq, Repr

/-- One device's pending-operation state. -/
structure WDev where
  handle : HState
  writes : Nat
  reads : List Nat
  notifies : List Nat
  completedWrites : Nat
  deriving DecidableEq, Repr

/-- `dev.handle = _update_future(dev.handle, -1)` — the first mutation of
`_on_disconn_message` (bluefruit.py:280): the handle is resolved to the
disconnected state. -/
def clearHandle (d : WDev) : WDev := { d with handle := HState.disc }

/-- `_poison_device` (bluefruit.py:187-199): fail the handle if it is still
pending, then fail and drop every pending write, read and notify future. -/
def poisonDevice (d : WDev) : WDev :=
  { handle := match d.handle with | HState.pend => HState.failed | h => h,
    writes := 0,
    reads := [],
    notifies := [],
    completedWrites := d.completedWrites + d.writes }

/-- `_on_disconn_message` for a connected device (bluefruit.py:279-281):
clear the handle to disconnected FIRST, then poison the pending
operations. -/
def onDisconn (d : WDev) : WDev := poisonDevice (clearHandle d)

/-- The device states at the three sequence points of
`_on_disconn_message`: before, after the handle is cleared
(bluefruit.py:280), and after `_poison_device` (bluefruit.py:281). -/
def disconnTrace (d : WDev) : List WDev := [d, clearHandle d, onDisconn d]

/-- Replayable per-device events: `conn` resolution, a `Bluefruit.write`
submission, a `write count=k` credit, and a `disconn` event. -/
inductive DevEvent
  | connEvt (h : Nat)
  | writeSubmit
  | writeEvt (k : Nat)
  | disconnEvt

/-- `Device.fully_connected` (bluefruit.py:44-47). -/
def isFullyConnected (d : WDev) : Bool :=
  match d.handle with | HState.conn _ => true | _ => false

/-- Effect of one replayed event: `_on_conn_message` resolves the handle;
`Bluefruit.write` appends a pending write future for a connected device
(bluefruit.py:146); `_on_write_message` completes the `min(count, pending)`
oldest writes (bluefruit.py:361-366); `disconn` runs `_on_disconn_message`. -/
def devStep (d : WDev) : DevEvent → WDev
  | DevEvent.connEvt h => { d with handle := HState.conn h }
  | DevEvent.writeSubmit =>
    if isFullyConnected d then { d with writes := d.writes + 1 } else d
  | DevEvent.writeEvt k =>
    { d with writes := d.writes - k,
             completedWrites := d.completedWrites + min k d.writes }
  | DevEvent.disconnEvt => onDisconn d

/-- Replay a sequence of events against one device. -/
def replay (d : WDev) (evs : List DevEvent) : WDev := evs.foldl devStep d

/-- A fresh, fully disconnected device with no pending operations. -/
def freshDev : WDev := ⟨HState.disc, 0, [], [], 0⟩

/-- A device awaiting its `disconn` event with one pending write future. -/
def dPendWrite : WDev := ⟨HState.pend, 1, [], [], 0⟩

end BluefruitDev

namespace NametagProto

/-- An empty stash-backup cache. -/
def emptyBackup : String → Option StashState := fun _ => none

end NametagProto

namespace LobbyGame

/-- The flavor-A test configuration used throughout `game_test.py`. -/
def cfgA : TagConfig := ⟨"XXXX", 0, "A", ""⟩

/-- A stash carrying state `{GAM, 1, "SWAY"}`, read from the device. -/
def swayStash : NametagProto.StashState :=
  ⟨TagState.toBytes ⟨bGAM, 1, str2bytes "SWAY"⟩, false, false, 0⟩

/-- A stash carrying the welcome state `{GAM, 0, "TWIN"}`, read from the
device (not from the backup cache). -/
def gamStash : NametagProto.StashState :=
  ⟨TagState.toBytes ⟨bGAM, 0, str2bytes "TWIN"⟩, false, false, 0⟩

/-- A stash carrying state `{GAM, 1, "SAGE"}`, read from the device:
`"SAGE"` has no transition at station 3 and is not a checkpoint. -/
def sageStash : NametagProto.StashState :=
  ⟨TagState.toBytes ⟨bGAM, 1, str2bytes "SAGE"⟩, false, false, 0⟩

/-- The semantic form of the staff-station early-return condition: the
stash is present, it decodes, its phase is `GAM` or `WIN`, and it did not
come from the backup cache. -/
def staffNoChange (stash : Option NametagProto.StashState) : Prop :=
  ∃ s st, stash = some s ∧ TagState.from_bytes s.data = some st ∧
    (st.phase = bGAM ∨ st.phase = bWIN) ∧ s.from_backup = false

end LobbyGame

/-!
## Theorems

Helper lemmas first, then one theorem per verified property, each preceded
by a doc comment naming it.
-/

namespace NametagProto

/-- Setting the high bit on a value below 128 and clearing it again is the
identity: the stash length byte `0x80 | len` decodes back to `len`. -/
theorem lor128_xor : ∀ n < 128, (128 ||| n) ^^^ 128 = n := by decide

/-- Unfolding of `decode_stash` on a packet with a nonempty payload part. -/
theorem decode_stash_cons (b0 b1 : Nat) (rest : List Nat) (h : rest ≠ []) :
    decode_stash (b0 :: b1 :: rest) =
      if (rest.take (b0 ^^^ 128)).length = b0 ^^^ 128 ∧
          b1 = stash_crc (rest.take (b0 ^^^ 128)) then
        some (rest.take (b0 ^^^ 128))
      else none := by
  have hlen : (b0 :: b1 :: rest).length > 2 := by
    have := List.length_pos.mpr h
    simp only [List.length_cons]
    omega
  unfold decode_stash
  rw [if_pos hlen]

/-- C1 (amended): for every payload of 1 to 18 bytes, `write_stash` builds
the packet `(0x80 | len) :: CRC :: payload` whose CRC byte is
`stash_crc payload`, and the `read_stash` acceptance rule decodes that
packet back to the payload.  (The empty payload does not round-trip: the
code accepts a read only when its length exceeds 2, see
`stash_roundtrip_empty_cex`.) -/
theorem stash_roundtrip (b : List Nat) (h1 : 1 ≤ b.length) (h2 : b.length ≤ 18) :
    encode_stash b = some (stashPacket b) ∧
    decode_stash (stashPacket b) = some b ∧
    (stashPacket b).get? 1 = some (stash_crc b) := by
  refine ⟨?_, ?_, rfl⟩
  · unfold encode_stash
    rw [if_neg]
    omega
  · have hb : b ≠ [] := by
      intro hb
      rw [hb] at h1
      simp at h1
    rw [stashPacket, decode_stash_cons _ _ _ hb, lor128_xor b.length (by omega),
      List.take_length, if_pos ⟨rfl, rfl⟩]

/-- C1 counterexample: the empty payload, although allowed by `write_stash`
(length 0 <= 18), produces a 2-byte packet that the stash-read rule
rejects, because `read_stash` requires `len(packet) > 2`, not `>= 2`. -/
theorem stash_roundtrip_empty_cex :
    encode_stash [] = some [128, 255] ∧ stashPacket [] = [128, 255] ∧
    stash_crc [] = 255 ∧ decode_stash [128, 255] = none := by decide

/-- Witness: the spec's scenario-5 stash payload round-trips. -/
theorem stash_roundtrip_witness :
    decode_stash (stashPacket [3, 71, 65, 77, 0, 0, 77, 65, 78]) =
      some [3, 71, 65, 77, 0, 0, 77, 65, 78] :=
  (stash_roundtrip [3, 71, 65, 77, 0, 0, 77, 65, 78] (by decide) (by decide)).2.1

/-- C2 counterexample: a successful `write_stash` records the backup entry
with `from_backup = True` (protocol.py:117), not `False` as claimed. -/
theorem stash_backup_write_flag_cex :
    (write_stash "2D01" [65] (stashPacket [65]) 5 emptyBackup).map
      (fun m => (m "2D01").map StashState.from_backup) = some (some true) := by
  decide

/-- C2 (amended): after a successful stash write the per-badge backup entry
is `{data, from_backup = true, displaced = false, captured = now}`, and
after a successful stash read it is
`{data, from_backup = false, displaced = false, captured = now}` (and the
read returns exactly that record). -/
theorem stash_backup_update (id : String) (data readBack packet : List Nat)
    (now : Nat) (backup : String → Option StashState)
    (hlen : data.length ≤ 18)
    (hrb : readBack.take (stashPacket data).length = stashPacket data) :
    write_stash id data readBack now backup =
      some (fun i => if i = id then some ⟨data, true, false, now⟩ else backup i) ∧
    ∀ d, decode_stash packet = some d →
      read_stash id packet now backup =
        (some ⟨d, false, false, now⟩,
         fun i => if i = id then some ⟨d, false, false, now⟩ else backup i) := by
  constructor
  · unfold write_stash
    rw [if_neg (by omega), if_pos hrb]
  · intro d hd
    unfold read_stash
    rw [hd]

/-- Witness: writing payload `[65]` to badge `"2D01"` at time 5 and reading
packet `stashPacket [66]` both update an empty cache as stated. -/
theorem stash_backup_update_witness :
    write_stash "2D01" [65] (stashPacket [65]) 5 emptyBackup =
      some (fun i => if i = "2D01" then some ⟨[65], true, false, 5⟩
            else emptyBackup i) ∧
    read_stash "2D01" (stashPacket [66]) 5 emptyBackup =
      (some ⟨[66], false, false, 5⟩,
       fun i => if i = "2D01" then some ⟨[66], false, false, 5⟩
       else emptyBackup i) := by
  have h := stash_backup_update "2D01" [65] (stashPacket [65]) (stashPacket [66])
    5 emptyBackup (by decide) (by rw [List.take_length])
  exact ⟨h.1, h.2 [66] (by decide)⟩

/-- C9: the glyph validation of `show_glyphs` tests `glyph.size[1]` (the
height) in both comparisons, so any 1-bit glyph of height 12 is accepted no
matter its width — width 49, width 300 and width 0 all pass — while the
claim (and the code's own error message, `!= ([1-48], 12)`) say widths
outside 1..48 must be rejected.  Heights other than 12, and modes other
than `"1"`, are rejected. -/
theorem glyph_size_check_bug :
    glyphCheckOk "1" 49 12 = true ∧ glyphCheckOk "1" 300 12 = true ∧
    glyphCheckOk "1" 0 12 = true ∧ glyphCheckOk "1" 20 12 = true ∧
    glyphCheckOk "1" 48 11 = false ∧ glyphCheckOk "1" 48 13 = false ∧
    glyphCheckOk "L" 20 12 = false := by decide

end NametagProto

namespace BluefruitDev

/-- C6 counterexample: replaying a `disconn` event against a device whose
handle awaits the disconnect and which still has one pending write, the
handler's middle sequence point (after `bluefruit.py:280`, before
`_poison_device` at line 281) has the handle already cleared to
disconnected while the write completion is still pending; and at no
sequence point has a write been failed while the handle is still pending.
So the failing of pending operations does not happen before the handle is
cleared. -/
theorem disconn_order_cex :
    disconnTrace dPendWrite =
      [⟨HState.pend, 1, [], [], 0⟩, ⟨HState.disc, 1, [], [], 0⟩,
       ⟨HState.disc, 0, [], [], 1⟩] ∧
    (disconnTrace dPendWrite).all
      (fun s => !(decide (0 < s.completedWrites) &&
        decide (s.handle = HState.pend))) = true := by decide

/-- C6 (amended): on a `disconn` event the handle is cleared to the
disconnected state first and the still-pending write/read/notify
completions are failed immediately after, within the same handler; after
the handler no pending operation remains and every previously pending
write is completed.  Replaying connect, then K write submissions, then
disconnect against a fresh device completes exactly K writes and leaves
none pending. -/
theorem disconn_poison_behavior :
    (∀ d : WDev,
      (onDisconn d).handle = HState.disc ∧ (onDisconn d).writes = 0 ∧
      (onDisconn d).reads = [] ∧ (onDisconn d).notifies = [] ∧
      (onDisconn d).completedWrites = d.completedWrites + d.writes ∧
      (clearHandle d).writes = d.writes) ∧
    ∀ (h K : Nat),
      replay freshDev (DevEvent.connEvt h ::
        (List.replicate K DevEvent.writeSubmit ++ [DevEvent.disconnEvt])) =
      ⟨HState.disc, 0, [], [], K⟩ := by
  constructor
  · exact fun d => ⟨rfl, rfl, rfl, rfl, rfl, rfl⟩
  · intro h K
    have aux : ∀ (K w c : Nat),
        replay ⟨HState.conn h, w, [], [], c⟩ (List.replicate K DevEvent.writeSubmit) =
        ⟨HState.conn h, w + K, [], [], c⟩ := by
      intro K
      induction K with
      | zero => intro w c; rfl
      | succ n ih =>
        intro w c
        rw [List.replicate_succ]
        show replay ⟨HState.conn h, w + 1, [], [], c⟩
          (List.replicate n DevEvent.writeSubmit) = ⟨HState.conn h, w + (n + 1), [], [], c⟩
        rw [ih (w + 1) c]
        congr 1
        omega
    show replay (devStep freshDev (DevEvent.connEvt h))
      (List.replicate K DevEvent.writeSubmit ++ [DevEvent.disconnEvt]) = _
    unfold replay
    rw [List.foldl_append]
    have := aux K 0 0
    unfold replay at this
    rw [show devStep freshDev (DevEvent.connEvt h) = ⟨HState.conn h, 0, [], [], 0⟩ from rfl,
      this]
    simp [devStep, onDisconn, poisonDevice, clearHandle]

end BluefruitDev

namespace NametagProto

/-- The 300-byte bulk body splits into chunks of 128, 128 and 44 bytes. -/
theorem chunksOf_replicate_300 :
    chunksOf 128 (List.replicate 300 (0:Nat)) =
      [List.replicate 128 (0:Nat), List.replicate 128 0, List.replicate 44 0] := by
  rw [chunksOf, if_neg (by simp)]
  rw [List.take_replicate, List.drop_replicate]
  norm_num
  rw [chunksOf, if_neg (by simp)]
  rw [List.take_replicate, List.drop_replicate]
  norm_num
  rw [chunksOf, if_neg (by simp)]
  rw [List.take_replicate, List.drop_replicate]
  norm_num
  rw [chunksOf]
  simp

set_option maxRecDepth 8000 in
/-- C3: evaluated at a 300-byte body, the bulk upload emits three wrapped
chunks whose payload lengths sum to 300 (128 + 128 + 44), whose chunk
indices are 0, 1, 2, and whose XOR checksum verifies over each whole
wrapped chunk — but the `total_body_len_be16` field (bytes 1..2 of each
wrapped chunk) equals `be16 300 = [1, 44]` only in chunk 0; chunks 1 and 2
carry `[0, 135]`, the length of the PREVIOUS wrapped chunk, because
`send_bulk_message` reuses the Python variable `body` for the wrapped chunk
(protocol.py:175).  The claim (and spec) require `len(B)` in every chunk. -/
theorem bulk_total_len_bug :
    (chunksOf 128 (List.replicate 300 (0:Nat))).map List.length = [128, 128, 44] ∧
    (wrapChunks (List.replicate 300 0)).map (fun c => (c.drop 1).take 2) =
      [[1, 44], [0, 135], [0, 135]] ∧
    be16 300 = [1, 44] ∧
    ([0, 135] : List Nat) ≠ [1, 44] ∧
    (wrapChunks (List.replicate 300 0)).map (fun c => (c.drop 3).take 2) =
      [[0, 0], [0, 1], [0, 2]] ∧
    (wrapChunks (List.replicate 300 0)).all (fun c => xorChecksum c == 0) = true := by
  unfold wrapChunks
  rw [chunksOf_replicate_300]
  decide

/-- Unfolding of `escape123` one input byte at a time. -/
theorem escape123_cons (c : Nat) (l : List Nat) :
    escape123 (c :: l) = escByte c ++ escape123 l := by
  by_cases h2 : c = 2
  · subst h2
    simp [escape123, replaceByte, escByte]
  · by_cases h1 : c = 1
    · subst h1
      simp [escape123, replaceByte, escByte]
    · by_cases h3 : c = 3
      · subst h3
        simp [escape123, replaceByte, escByte]
      · simp [escape123, replaceByte, escByte, h1, h2, h3]

/-- Bytes other than `0x02` pass through `unescape` unchanged. -/
theorem unescape_cons_ne (c : Nat) (h : c ≠ 2) (l : List Nat) :
    unescape (c :: l) = c :: unescape l := by
  cases l with
  | nil => rfl
  | cons d rest => simp [unescape, h]

/-- The pair `02 05` unescapes to `0x01`. -/
theorem unescape_pair5 (l : List Nat) : unescape (2 :: 5 :: l) = 1 :: unescape l := by
  simp [unescape]

/-- The pair `02 06` unescapes to `0x02`. -/
theorem unescape_pair6 (l : List Nat) : unescape (2 :: 6 :: l) = 2 :: unescape l := by
  simp [unescape]

/-- The pair `02 07` unescapes to `0x03`. -/
theorem unescape_pair7 (l : List Nat) : unescape (2 :: 7 :: l) = 3 :: unescape l := by
  simp [unescape]

/-- Unescaping inverts escaping. -/
theorem unescape_escape123 (l : List Nat) : unescape (escape123 l) = l := by
  induction l with
  | nil => rfl
  | cons c l ih =>
    rw [escape123_cons]
    by_cases h2 : c = 2
    · subst h2
      show unescape (2 :: 6 :: escape123 l) = 2 :: l
      rw [unescape_pair6, ih]
    · by_cases h1 : c = 1
      · subst h1
        show unescape (2 :: 5 :: escape123 l) = 1 :: l
        rw [unescape_pair5, ih]
      · by_cases h3 : c = 3
        · subst h3
          show unescape (2 :: 7 :: escape123 l) = 3 :: l
          rw [unescape_pair7, ih]
        · show unescape ((if c = 2 then [2, 6] else if c = 1 then [2, 5]
            else if c = 3 then [2, 7] else [c]) ++ escape123 l) = c :: l
          rw [if_neg h2, if_neg h1, if_neg h3]
          show unescape (c :: escape123 l) = c :: l
          rw [unescape_cons_ne c h2, ih]

/-- The escaped stream contains neither `0x01` nor `0x03`. -/
theorem escape123_no13 (l : List Nat) : ∀ x ∈ escape123 l, x ≠ 1 ∧ x ≠ 3 := by
  induction l with
  | nil =>
    intro x hx
    simp [escape123, replaceByte] at hx
  | cons c l ih =>
    rw [escape123_cons]
    intro x hx
    rcases List.mem_append.mp hx with h | h
    · unfold escByte at h
      split at h
      · simp at h
        omega
      · split at h
        · simp at h
          omega
        · split at h
          · simp at h
            omega
          · simp at h
            omega
    · exact ih x h

/-- `twoOk` ignores a leading byte other than `0x02`. -/
theorem twoOk_cons_ne (c : Nat) (h : c ≠ 2) (l : List Nat) :
    twoOk (c :: l) = twoOk l := by
  simp [twoOk, h]

/-- Every `0x02` in the escaped stream is followed by `0x05`, `0x06` or
`0x07`. -/
theorem twoOk_escape123 (l : List Nat) : twoOk (escape123 l) = true := by
  induction l with
  | nil => rfl
  | cons c l ih =>
    rw [escape123_cons]
    by_cases h2 : c = 2
    · subst h2
      show twoOk (2 :: 6 :: escape123 l) = true
      simpa [twoOk] using ih
    · by_cases h1 : c = 1
      · subst h1
        show twoOk (2 :: 5 :: escape123 l) = true
        simpa [twoOk] using ih
      · by_cases h3 : c = 3
        · subst h3
          show twoOk (2 :: 7 :: escape123 l) = true
          simpa [twoOk] using ih
        · show twoOk ((if c = 2 then [2, 6] else if c = 1 then [2, 5]
            else if c = 3 then [2, 7] else [c]) ++ escape123 l) = true
          rw [if_neg h2, if_neg h1, if_neg h3]
          show twoOk (c :: escape123 l) = true
          rw [twoOk_cons_ne c h2, ih]

/-- C4: for every byte sequence, unescaping the `escape123` encoding (the
`0x02 -> 02 06` pass applied first, then `0x01 -> 02 05`, then
`0x03 -> 02 07`) returns the original bytes; the escaped stream contains no
`0x01` or `0x03` byte at all; and every `0x02` in it is immediately
followed by `0x05`, `0x06` or `0x07`.  `unescape` is modelled from the
spec, the repository containing no decoder. -/
theorem escape_roundtrip (b : List Nat) :
    unescape (escape123 b) = b ∧
    (∀ x ∈ escape123 b, x ≠ 1 ∧ x ≠ 3) ∧
    twoOk (escape123 b) = true :=
  ⟨unescape_escape123 b, escape123_no13 b, twoOk_escape123 b⟩

/-- Witness: the escape round-trip evaluated on `[1, 2, 3, 4, 5]`. -/
theorem escape_roundtrip_witness :
    unescape (escape123 [1, 2, 3, 4, 5]) = [1, 2, 3, 4, 5] ∧
    twoOk (escape123 [1, 2, 3, 4, 5]) = true :=
  ⟨(escape_roundtrip [1, 2, 3, 4, 5]).1, (escape_roundtrip [1, 2, 3, 4, 5]).2.2⟩

end NametagProto

namespace Bluefruit

/-- Reading the updated address. -/
theorem updF_same {β : Type} (f : String → β) (a : String) (v : β) :
    updF f a v a = v := by
  simp [updF]

/-- Reading an address other than the updated one. -/
theorem updF_ne {β : Type} (f : String → β) (a x : String) (v : β) (h : x ≠ a) :
    updF f a v x = f x := by
  simp [updF, h]

/-- A busy-connecting phase is engaged. -/
theorem engagedP_of_busy (p : CPhase) (h : busyPhase p = true) :
    engagedP p = true := by
  simp [engagedP, h]

/-- A connect-pending phase is engaged. -/
theorem engagedP_of_connectPending (p : CPhase) (h : connectPendingPhase p = true) :
    engagedP p = true := by
  simp [engagedP, h]

/-- The fresh adapter satisfies the inductive invariant. -/
theorem AInv_init : AInv initAdapter := by
  refine ⟨fun a => rfl, fun a ha => ?_, fun a b ha _ => ?_⟩
  · simp [initAdapter] at ha
  · simp [initAdapter, engagedP, busyPhase, connectPendingPhase] at ha

/-- While the scanner runs with an empty `busy_connecting`, no device is
engaged in a connect handshake at all. -/
theorem no_engaged_of_clear (s : AdapterState) (hstop : s.stopping = false)
    (hnb : ∀ b, s.busy b = false) (hi : AInv s) (x : String) :
    engagedP (s.phase x) = true → False := by
  intro hx
  obtain ⟨hsync, horph, -⟩ := hi
  have hb := hsync x
  rw [hnb x] at hb
  cases hq : s.phase x <;> rw [hq] at hb hx
  case idle => exact Bool.noConfusion hx
  case reserved => exact Bool.noConfusion hb
  case connecting => exact Bool.noConfusion hb
  case connGot => exact Bool.noConfusion hb
  case connFailed => exact Bool.noConfusion hb
  case connected => exact Bool.noConfusion hx
  case disconnecting => exact Bool.noConfusion hx
  case orphan =>
    have := horph x hq
    rw [hstop] at this
    exact Bool.noConfusion this

/-- A step that moves one device between two phases of the same
busy-connecting class, leaving `busy_connecting` and `stopping` unchanged,
preserves the invariant when the new phase is engaged or orphaned only if
the old one was. -/
theorem AInv_phase_same (s : AdapterState) (a : String) (p : CPhase)
    (hsame : busyPhase p = busyPhase (s.phase a))
    (heng : engagedP p = true → engagedP (s.phase a) = true)
    (horph : p = CPhase.orphan → s.stopping = true) (hi : AInv s) :
    AInv ⟨updF s.phase a p, s.busy, s.stopping⟩ := by
  obtain ⟨hsync, horphI, huniq⟩ := hi
  refine ⟨?_, ?_, ?_⟩
  · intro x
    by_cases hx : x = a
    · subst hx
      show s.busy x = busyPhase (updF s.phase x p x)
      rw [updF_same, hsame]
      exact hsync x
    · show s.busy x = busyPhase (updF s.phase a p x)
      rw [updF_ne _ _ _ _ hx]
      exact hsync x
  · intro x hx
    dsimp only at hx
    show s.stopping = true
    by_cases hxa : x = a
    · subst hxa
      rw [updF_same] at hx
      exact horph hx
    · rw [updF_ne _ _ _ _ hxa] at hx
      exact horphI x hx
  · intro x y hx hy
    dsimp only at hx hy
    apply huniq
    · by_cases hxa : x = a
      · subst hxa
        rw [updF_same] at hx
        exact heng hx
      · rw [updF_ne _ _ _ _ hxa] at hx
        exact hx
    · by_cases hya : y = a
      · subst hya
        rw [updF_same] at hy
        exact heng hy
      · rw [updF_ne _ _ _ _ hya] at hy
        exact hy

/-- A step that moves one device to a non-busy phase and removes its
address from `busy_connecting` preserves the invariant under the same
side conditions. -/
theorem AInv_remove (s : AdapterState) (a : String) (p : CPhase)
    (hbp : busyPhase p = false)
    (heng : engagedP p = true → engagedP (s.phase a) = true)
    (horph : p = CPhase.orphan → s.stopping = true) (hi : AInv s) :
    AInv ⟨updF s.phase a p, updF s.busy a false, s.stopping⟩ := by
  obtain ⟨hsync, horphI, huniq⟩ := hi
  refine ⟨?_, ?_, ?_⟩
  · intro x
    by_cases hx : x = a
    · subst hx
      show updF s.busy x false x = busyPhase (updF s.phase x p x)
      rw [updF_same, updF_same, hbp]
    · show updF s.busy a false x = busyPhase (updF s.phase a p x)
      rw [updF_ne _ _ _ _ hx, updF_ne _ _ _ _ hx]
      exact hsync x
  · intro x hx
    dsimp only at hx
    show s.stopping = true
    by_cases hxa : x = a
    · subst hxa
      rw [updF_same] at hx
      exact horph hx
    · rw [updF_ne _ _ _ _ hxa] at hx
      exact horphI x hx
  · intro x y hx hy
    dsimp only at hx hy
    apply huniq
    · by_cases hxa : x = a
      · subst hxa
        rw [updF_same] at hx
        exact heng hx
      · rw [updF_ne _ _ _ _ hxa] at hx
        exact hx
    · by_cases hya : y = a
      · subst hya
        rw [updF_same] at hy
        exact heng hy
      · rw [updF_ne _ _ _ _ hya] at hy
        exact hy

/-- Every scheduler/adapter step preserves the inductive invariant. -/
theorem AInv_step {s t : AdapterState} (h : AStep s t) (hi : AInv s) : AInv t := by
  cases h with
  | spawn a hstop hpa hnb =>
    have hsync := hi.1
    have horphI := hi.2.1
    refine ⟨?_, ?_, ?_⟩
    · intro x
      by_cases hx : x = a
      · subst hx
        show updF s.busy x true x = busyPhase (updF s.phase x CPhase.reserved x)
        rw [updF_same, updF_same]
        rfl
      · show updF s.busy a true x = busyPhase (updF s.phase a CPhase.reserved x)
        rw [updF_ne _ _ _ _ hx, updF_ne _ _ _ _ hx]
        exact hsync x
    · intro x hx
      dsimp only at hx
      show s.stopping = true
      by_cases hxa : x = a
      · subst hxa
        rw [updF_same] at hx
        exact CPhase.noConfusion hx
      · rw [updF_ne _ _ _ _ hxa] at hx
        exact horphI x hx
    · intro x y hx hy
      dsimp only at hx hy
      by_cases hxa : x = a
      · by_cases hya : y = a
        · rw [hxa, hya]
        · exfalso
          rw [updF_ne _ _ _ _ hya] at hy
          exact no_engaged_of_clear s hstop hnb hi y hy
      · exfalso
        rw [updF_ne _ _ _ _ hxa] at hx
        exact no_engaged_of_clear s hstop hnb hi x hx
  | start_ok a _ hpa _ =>
    exact AInv_phase_same s a CPhase.connecting (by rw [hpa]; rfl)
      (fun _ => by rw [hpa]; rfl) (fun h => CPhase.noConfusion h) hi
  | start_abort a b _ hpa _ _ =>
    exact AInv_remove s a CPhase.idle rfl (fun h => Bool.noConfusion h)
      (fun h => CPhase.noConfusion h) hi
  | conn_ok a hpa =>
    exact AInv_phase_same s a CPhase.connGot (by rw [hpa]; rfl)
      (fun _ => by rw [hpa]; rfl) (fun h => CPhase.noConfusion h) hi
  | conn_fail a hpa =>
    exact AInv_phase_same s a CPhase.connFailed (by rw [hpa]; rfl)
      (fun _ => by rw [hpa]; rfl) (fun h => CPhase.noConfusion h) hi
  | fin_ok a hpa =>
    exact AInv_remove s a CPhase.connected rfl (fun h => Bool.noConfusion h)
      (fun h => CPhase.noConfusion h) hi
  | fin_fail a hpa =>
    exact AInv_remove s a CPhase.idle rfl (fun h => Bool.noConfusion h)
      (fun h => CPhase.noConfusion h) hi
  | disc_req a hpa =>
    exact AInv_phase_same s a CPhase.disconnecting (by rw [hpa]; rfl)
      (fun h => Bool.noConfusion h) (fun h => CPhase.noConfusion h) hi
  | disc_done a hpa =>
    exact AInv_phase_same s a CPhase.idle (by rw [hpa]; rfl)
      (fun h => Bool.noConfusion h) (fun h => CPhase.noConfusion h) hi
  | disc_fail a hpa =>
    exact AInv_phase_same s a CPhase.idle (by rw [hpa]; rfl)
      (fun h => Bool.noConfusion h) (fun h => CPhase.noConfusion h) hi
  | stop =>
    obtain ⟨hsync, -, huniq⟩ := hi
    exact ⟨hsync, fun x _ => rfl, huniq⟩
  | cancel_reserved a hstop hpa =>
    exact AInv_remove s a CPhase.idle rfl (fun h => Bool.noConfusion h)
      (fun h => CPhase.noConfusion h) hi
  | cancel_send a hstop hpa =>
    exact AInv_remove s a CPhase.orphan rfl (fun _ => by rw [hpa]; rfl)
      (fun _ => hstop) hi
  | cancel_await a hstop hpa =>
    exact AInv_remove s a CPhase.idle rfl (fun h => Bool.noConfusion h)
      (fun h => CPhase.noConfusion h) hi
  | cancel_got a hstop hpa =>
    exact AInv_remove s a CPhase.connected rfl (fun h => Bool.noConfusion h)
      (fun h => CPhase.noConfusion h) hi
  | cancel_failed a hstop hpa =>
    exact AInv_remove s a CPhase.idle rfl (fun h => Bool.noConfusion h)
      (fun h => CPhase.noConfusion h) hi
  | cancel_disc a hstop hpa =>
    exact AInv_phase_same s a CPhase.idle (by rw [hpa]; rfl)
      (fun h => Bool.noConfusion h) (fun h => CPhase.noConfusion h) hi
  | orphan_conn a hpa =>
    exact AInv_phase_same s a CPhase.connected (by rw [hpa]; rfl)
      (fun h => Bool.noConfusion h) (fun h => CPhase.noConfusion h) hi
  | orphan_conn_fail a hpa =>
    exact AInv_phase_same s a CPhase.idle (by rw [hpa]; rfl)
      (fun h => Bool.noConfusion h) (fun h => CPhase.noConfusion h) hi

/-- Every reachable adapter state satisfies the inductive invariant. -/
theorem AReach_inv (s : AdapterState) (h : AReach s) : AInv s := by
  induction h with
  | refl => exact AInv_init
  | tail _ hstep ih => exact AInv_step hstep ih

/-- C5 (amended): in every reachable scheduler/adapter state — including
the shutdown states in which a cancelled task has left a handle
connect-pending with its busy slot already discarded — at most one device
is engaged in a connect handshake: the addresses that are in
`busy_connecting` or whose handle is pending from a connect request all
coincide.  The claimed sum `count(pending) + count(busy_connecting)`
nevertheless reaches 2, because a device mid-connect is counted by both
terms at once (see `single_connect_claim_cex`); handles pending from
disconnect requests are not covered by this bound. -/
theorem single_connect_invariant (s : AdapterState) (h : AReach s) :
    ∀ a b, connBusyD s a → connBusyD s b → a = b := by
  obtain ⟨hsync, -, huniq⟩ := AReach_inv s h
  intro a b ha hb
  apply huniq
  · rcases ha with ha | ha
    · refine engagedP_of_busy _ ?_
      rw [← hsync a]
      exact ha
    · exact engagedP_of_connectPending _ ha
  · rcases hb with hb | hb
    · refine engagedP_of_busy _ ?_
      rw [← hsync b]
      exact hb
    · exact engagedP_of_connectPending _ hb

/-- C5 counterexample: the state reached by `spawn "A"` followed by the
task start (handoff plus `Bluefruit.connect` up to its await) is reachable,
and in it device `"A"` has a pending connect handle AND its address in
`busy_connecting` at the same time — so
`count(pending connects) + count(busy_connecting) = 2 > 1`, refuting the
claimed adapter-wide sum bound. -/
theorem single_connect_claim_cex :
    AReach stateA2 ∧ ¬ singleConnectClaim stateA2 := by
  constructor
  · have h1 : AStep initAdapter stateA1 :=
      AStep.spawn initAdapter "A" rfl rfl (fun _ => rfl)
    have h2 : AStep stateA1 stateA2 :=
      AStep.start_ok stateA1 "A" rfl (by simp [stateA1, updF])
        (fun b hb => by simp [stateA1, initAdapter, updF, hb])
    exact Relation.ReflTransGen.tail (Relation.ReflTransGen.single h1) h2
  · rintro ⟨hdisj, -⟩
    refine hdisj "A" ⟨?_, ?_⟩
    · simp [stateA2, stateA1, updF, pendingPhase]
    · simp [stateA2, stateA1, initAdapter, updF]

/-- Witness: the invariant applied at the reachable mid-connect state
`stateA2`, whose device `"A"` is the one engaged in the handshake. -/
theorem single_connect_invariant_witness :
    connBusyD stateA2 "A" ∧ ("A" : String) = "A" := by
  have h1 : AStep initAdapter stateA1 :=
    AStep.spawn initAdapter "A" rfl rfl (fun _ => rfl)
  have h2 : AStep stateA1 stateA2 :=
    AStep.start_ok stateA1 "A" rfl (by simp [stateA1, updF])
      (fun b hb => by simp [stateA1, initAdapter, updF, hb])
  have hreach : AReach stateA2 :=
    Relation.ReflTransGen.tail (Relation.ReflTransGen.single h1) h2
  have hb : connBusyD stateA2 "A" :=
    Or.inr (by simp [stateA2, stateA1, updF, connectPendingPhase])
  exact ⟨hb, single_connect_invariant stateA2 hreach "A" "A" hb hb⟩

end Bluefruit

namespace LobbyGame

/-- A successful association-list lookup returns one of the stored values. -/
theorem lookup_val_mem {α β : Type} [BEq α] (k : α) (m : List (α × β)) (v : β)
    (h : List.lookup k m = some v) : v ∈ m.map Prod.snd := by
  induction m with
  | nil => exact Option.noConfusion h
  | cons p rest ih =>
    obtain ⟨a, b⟩ := p
    simp only [List.lookup] at h
    split at h
    · obtain rfl := Option.some.inj h
      simp
    · simp [ih h]

/-- Encoding an ASCII word keeps its length. -/
theorem str2bytes_length (w : String) : (str2bytes w).length = w.length := by
  simp [str2bytes]

/-- Every possible `start_word` (flavor start or `"BADTAG"`) encodes to at
most 12 bytes. -/
theorem startWordOf_len (config : TagConfig) :
    (str2bytes (startWordOf config)).length ≤ 12 := by
  unfold startWordOf
  cases h : List.lookup config.flavor FLAVOR_START with
  | none =>
    rw [Option.getD_none]
    decide
  | some v =>
    rw [Option.getD_some]
    have hv := lookup_val_mem _ _ _ h
    simp [FLAVOR_START] at hv
    rcases hv with h1 | h1 | h1 <;> subst h1 <;> decide

/-- Every transition target in `NEXT_WORD` is at most 12 bytes long. -/
theorem NEXT_WORD_val_len (g : Int) (v : List Nat)
    (hv : v ∈ (NEXT_WORD g).map Prod.snd) : v.length ≤ 12 := by
  unfold NEXT_WORD at hv
  split at hv
  · exact (by decide : ∀ x ∈ next_word_1.map Prod.snd, x.length ≤ 12) v hv
  · split at hv
    · exact (by decide : ∀ x ∈ next_word_2.map Prod.snd, x.length ≤ 12) v hv
    · split at hv
      · exact (by decide : ∀ x ∈ next_word_3.map Prod.snd, x.length ≤ 12) v hv
      · simp at hv

/-- Every checkpoint value is at most 12 bytes long. -/
theorem CHECKPOINT_val_len (v : List Nat)
    (hv : v ∈ CHECKPOINT.map Prod.snd) : v.length ≤ 12 :=
  (by decide : ∀ x ∈ CHECKPOINT.map Prod.snd, x.length ≤ 12) v hv

/-- The computed restart word is at most 12 bytes long. -/
theorem restart_len (config : TagConfig) (w : List Nat) :
    ((List.lookup w CHECKPOINT).getD (str2bytes (startWordOf config))).length ≤ 12 := by
  cases h : List.lookup w CHECKPOINT with
  | none =>
    rw [Option.getD_none]
    exact startWordOf_len config
  | some v =>
    rw [Option.getD_some]
    exact CHECKPOINT_val_len v (lookup_val_mem _ _ _ h)

/-- The reskip target is at most 12 bytes long. -/
theorem skip_len (g : Int) (r : List Nat) :
    ((List.lookup r (NEXT_WORD g)).getD []).length ≤ 12 := by
  cases h : List.lookup r (NEXT_WORD g) with
  | none =>
    rw [Option.getD_none]
    decide
  | some v =>
    rw [Option.getD_some]
    exact NEXT_WORD_val_len g v (lookup_val_mem _ _ _ h)

/-- The byte encoding of a tag state is its string plus a 6-byte header. -/
theorem toBytes_length (st : TagState) :
    (TagState.toBytes st).length = 6 + st.string.length := by
  simp [TagState.toBytes, int16ToLE]
  omega

/-- A decoded tag state's string is 6 bytes shorter than the stash data. -/
theorem from_bytes_string_len (data : List Nat) (st : TagState)
    (h : TagState.from_bytes data = some st) : st.string.length + 6 = data.length := by
  rcases data with _ | ⟨b0, _ | ⟨b1, _ | ⟨b2, _ | ⟨b3, _ | ⟨b4, _ | ⟨b5, rest⟩⟩⟩⟩⟩⟩ <;>
    simp [TagState.from_bytes] at h
  rw [← h]
  simp

set_option maxRecDepth 8000 in
/-- C7 counterexample: the badge at `{GAM, 1, "SWAY"}` visiting station 2
(flavor A).  `"SWAY"` has no station-2 transition, its checkpoint is
`"GO"`, and station 2 DOES have a defined transition from `"GO"` (to
`"SO"`), so the claim demands the reskip program carrying `"SO"` — but the
code tests `NEXT_GHOST.get("GO", 0) == 2`, which is false (`NEXT_GHOST`
maps `"GO"` to 3), and emits the plain restart program carrying `"GO"`. -/
theorem checkpoint_reskip_cex :
    (program_for_tag 2 cfgA (some swayStash)).map DisplayProgram.new_state =
      some ⟨bGAM, 2, str2bytes "GO"⟩ ∧
    List.lookup (str2bytes "GO") (NEXT_WORD 2) = some (str2bytes "SO") ∧
    str2bytes "GO" ≠ str2bytes "SO" := by decide

/-- C7 (amended): for a non-staff station, a decodable stash with phase
`GAM` whose number differs from the station id and whose word has no
transition at the station (hence in particular does not advance to the end
word), the program picks `restart = CHECKPOINT.get(word, start)`; if the
word already equals `restart` it emits the try-another program keeping
`restart`; otherwise, if `NEXT_GHOST.get(restart, 0)` equals the station id
(NOT "the station has a defined transition from restart", see
`checkpoint_reskip_cex`) it emits the reskip program carrying
`NEXT_WORD[station][restart]`; otherwise the restart program carrying
`restart`. -/
theorem checkpoint_restart_rule (ghost_id : Int) (config : TagConfig)
    (s : NametagProto.StashState) (st : TagState)
    (hg : ghost_id ≠ 0)
    (hdec : TagState.from_bytes s.data = some st)
    (hph : st.phase = bGAM)
    (hng : st.number ≠ ghost_id)
    (hnt : List.lookup st.string (NEXT_WORD ghost_id) = none)
    (_hne : st.string ≠ str2bytes (endWordOf config)) :
    (program_for_tag ghost_id config (some s)).map DisplayProgram.new_state =
      some (if st.string = (List.lookup st.string CHECKPOINT).getD (str2bytes (startWordOf config)) then
              ⟨bGAM, ghost_id, (List.lookup st.string CHECKPOINT).getD (str2bytes (startWordOf config))⟩
            else if ghost_id = (List.lookup ((List.lookup st.string CHECKPOINT).getD (str2bytes (startWordOf config))) NEXT_GHOST).getD 0 then
              ⟨bGAM, ghost_id, (List.lookup ((List.lookup st.string CHECKPOINT).getD (str2bytes (startWordOf config))) (NEXT_WORD ghost_id)).getD []⟩
            else ⟨bGAM, ghost_id, (List.lookup st.string CHECKPOINT).getD (str2bytes (startWordOf config))⟩) := by
  simp only [program_for_tag, Option.some_bind, Option.map_some', Option.getD_some]
  rw [if_neg hg, hdec]
  dsimp only
  rw [if_neg (by simp [hph]), if_neg hng, hnt]
  rw [if_neg (by simp : ¬(none : Option (List Nat)) = some (str2bytes (endWordOf config)))]
  dsimp only
  by_cases h1 : st.string = (List.lookup st.string CHECKPOINT).getD (str2bytes (startWordOf config))
  · rw [if_pos h1, if_pos h1, Option.map_some']
  · rw [if_neg h1, if_neg h1]
    by_cases h2 : ghost_id = (List.lookup ((List.lookup st.string CHECKPOINT).getD (str2bytes (startWordOf config))) NEXT_GHOST).getD 0
    · rw [if_pos h2, if_pos h2, Option.map_some']
    · rw [if_neg h2, if_neg h2, Option.map_some']

/-- Witness: the badge at `{GAM, 1, "SAGE"}` visiting station 3 (flavor A)
takes the restart path back to `"TWIN"`. -/
theorem checkpoint_restart_rule_witness :
    (program_for_tag 3 cfgA (some sageStash)).map DisplayProgram.new_state =
      some ⟨bGAM, 3, str2bytes "TWIN"⟩ := by
  have h := checkpoint_restart_rule 3 cfgA sageStash ⟨bGAM, 1, str2bytes "SAGE"⟩
    (by decide) (by decide) rfl (by decide) (by decide) (by decide)
  rw [h]
  decide

/-- The code's staff-station early-return test agrees with the semantic
condition `staffNoChange`. -/
theorem staffSkip_eq_true_iff (stash : Option NametagProto.StashState) :
    staffSkip (stash.bind fun s => TagState.from_bytes s.data)
        ((stash.map NametagProto.StashState.from_backup).getD false) = true ↔
      staffNoChange stash := by
  cases stash with
  | none => simp [staffSkip, staffNoChange]
  | some s =>
    cases hfb : TagState.from_bytes s.data with
    | none => simp [staffSkip, staffNoChange, hfb]
    | some st => simp [staffSkip, staffNoChange, hfb]

/-- C8: at the staff station (id 0), if the stash is present, decodes, has
phase `GAM` or `WIN`, and did not come from the backup cache, no program is
returned; in every other case the welcome program is returned, whose new
state is `{GAM, 0, start_word}`; in particular with flavor `"A"` and no
stash the new state is `{GAM, 0, "TWIN"}`. -/
theorem staff_station_rule :
    (∀ (config : TagConfig) (stash : Option NametagProto.StashState),
      (staffNoChange stash → program_for_tag 0 config stash = none) ∧
      (¬ staffNoChange stash →
        program_for_tag 0 config stash =
          some ⟨⟨bGAM, 0, str2bytes (startWordOf config)⟩,
            [⟨some ("need-tag" ++ config.flavor), endWordOf config, true, false⟩,
             ⟨some "use-guides", "", false, false⟩,
             ⟨some "give", quot2 (startWordOf config), true, true⟩]⟩)) ∧
    program_for_tag 0 cfgA none =
      some ⟨⟨bGAM, 0, str2bytes "TWIN"⟩,
        [⟨some "need-tagA", "REST", true, false⟩,
         ⟨some "use-guides", "", false, false⟩,
         ⟨some "give", "\"TWIN\"", true, true⟩]⟩ := by
  constructor
  · intro config stash
    constructor
    · intro hno
      have hskip := (staffSkip_eq_true_iff stash).mpr hno
      simp [program_for_tag, hskip]
    · intro hnot
      have hskip : staffSkip (stash.bind fun s => TagState.from_bytes s.data)
          ((stash.map NametagProto.StashState.from_backup).getD false) = false := by
        cases hv : staffSkip (stash.bind fun s => TagState.from_bytes s.data)
            ((stash.map NametagProto.StashState.from_backup).getD false) with
        | false => rfl
        | true => exact absurd ((staffSkip_eq_true_iff stash).mp hv) hnot
      simp [program_for_tag, hskip]
  · decide

/-- Witness: a fresh device-read `{GAM, 0, "TWIN"}` stash at the staff
station yields no program. -/
theorem staff_station_rule_witness :
    program_for_tag 0 cfgA (some gamStash) = none :=
  (staff_station_rule.1 cfgA (some gamStash)).1
    ⟨gamStash, ⟨bGAM, 0, str2bytes "TWIN"⟩, rfl, by decide, Or.inl rfl, rfl⟩

/-- C10 (implicit): every display program `program_for_tag` returns for a
stash that itself fits the 18-byte stash register has a new state whose
string is at most 12 bytes and whose byte encoding (4-byte length-prefixed
phase, little-endian int16 number, then the string) is at most 18 bytes, so
`write_stash` never rejects it for length. -/
theorem program_state_fits (ghost_id : Int) (config : TagConfig)
    (stash : Option NametagProto.StashState) (p : DisplayProgram)
    (hs : ∀ s, stash = some s → s.data.length ≤ 18)
    (hp : program_for_tag ghost_id config stash = some p) :
    p.new_state.string.length ≤ 12 ∧
    (TagState.toBytes p.new_state).length ≤ 18 ∧
    NametagProto.encode_stash (TagState.toBytes p.new_state) ≠ none := by
  suffices h12 : p.new_state.string.length ≤ 12 by
    have hl := toBytes_length p.new_state
    refine ⟨h12, by omega, ?_⟩
    unfold NametagProto.encode_stash
    rw [if_neg (by omega)]
    simp
  cases stash with
  | none =>
    simp only [program_for_tag, Option.none_bind, Option.map_none', Option.getD_none] at hp
    by_cases hg : ghost_id = 0
    · rw [if_pos hg, if_neg (by decide : ¬staffSkip none false = true)] at hp
      obtain rfl : p = _ := (Option.some.inj hp).symm
      exact startWordOf_len config
    · rw [if_neg hg] at hp
      obtain rfl : p = _ := (Option.some.inj hp).symm
      simp
  | some s =>
    have hs18 : s.data.length ≤ 18 := hs s rfl
    simp only [program_for_tag, Option.some_bind, Option.map_some', Option.getD_some] at hp
    cases hdec : TagState.from_bytes s.data with
    | none =>
      simp only [hdec] at hp
      by_cases hg : ghost_id = 0
      · rw [if_pos hg, if_neg (by simp [staffSkip] : ¬staffSkip none s.from_backup = true)] at hp
        obtain rfl : p = _ := (Option.some.inj hp).symm
        exact startWordOf_len config
      · rw [if_neg hg] at hp
        obtain rfl : p = _ := (Option.some.inj hp).symm
        simp
    | some st =>
      simp only [hdec] at hp
      by_cases hg : ghost_id = 0
      · rw [if_pos hg] at hp
        by_cases hsk : staffSkip (some st) s.from_backup = true
        · rw [if_pos hsk] at hp
          cases hp
        · rw [if_neg hsk] at hp
          obtain rfl : p = _ := (Option.some.inj hp).symm
          exact startWordOf_len config
      · rw [if_neg hg] at hp
        by_cases hph : st.phase = bGAM
        · rw [if_neg (by simp [hph])] at hp
          by_cases hng : st.number = ghost_id
          · rw [if_pos hng] at hp
            by_cases hfb : s.from_backup = true
            · rw [if_pos hfb] at hp
              obtain rfl : p = _ := (Option.some.inj hp).symm
              have := from_bytes_string_len s.data st hdec
              dsimp only
              omega
            · rw [if_neg hfb] at hp
              cases hp
          · rw [if_neg hng] at hp
            cases hnw : List.lookup st.string (NEXT_WORD ghost_id) with
            | some nw =>
              simp only [hnw] at hp
              by_cases hend : (some nw : Option (List Nat)) = some (str2bytes (endWordOf config))
              · rw [if_pos hend] at hp
                obtain rfl : p = _ := (Option.some.inj hp).symm
                simp
              · rw [if_neg hend] at hp
                obtain rfl : p = _ := (Option.some.inj hp).symm
                exact NEXT_WORD_val_len ghost_id nw (lookup_val_mem _ _ _ hnw)
            | none =>
              simp only [hnw] at hp
              rw [if_neg (by simp : ¬(none : Option (List Nat)) = some (str2bytes (endWordOf config)))] at hp
              by_cases h1 : st.string =
                  (List.lookup st.string CHECKPOINT).getD (str2bytes (startWordOf config))
              · rw [if_pos h1] at hp
                obtain rfl : p = _ := (Option.some.inj hp).symm
                exact restart_len config st.string
              · rw [if_neg h1] at hp
                by_cases h2 : ghost_id =
                    (List.lookup ((List.lookup st.string CHECKPOINT).getD
                      (str2bytes (startWordOf config))) NEXT_GHOST).getD 0
                · rw [if_pos h2] at hp
                  obtain rfl : p = _ := (Option.some.inj hp).symm
                  exact skip_len ghost_id _
                · rw [if_neg h2] at hp
                  obtain rfl : p = _ := (Option.some.inj hp).symm
                  exact restart_len config st.string
        · rw [if_pos hph] at hp
          cases hp

/-- Witness: the welcome program's state `{GAM, 0, "TWIN"}` fits the stash. -/
theorem program_state_fits_witness :
    (TagState.toBytes (TagState.mk bGAM 0 (str2bytes "TWIN"))).length ≤ 18 := by
  have h := program_state_fits 0 cfgA none
    ⟨⟨bGAM, 0, str2bytes "TWIN"⟩,
      [⟨some "need-tagA", "REST", true, false⟩,
       ⟨some "use-guides", "", false, false⟩,
       ⟨some "give", "\"TWIN\"", true, true⟩]⟩
    (fun s hsome => by cases hsome) (by decide)
  exact h.2.1

end LobbyGame
